import Mathlib

/-!
Shallow embedding of the Grocy receipt-OCR client (`src/app/grocy/client.py`).

Python strings are Lean `String`s (lists of characters); a Python function
that may raise is embedded as `Except String α`, where `Except.error`
carries the exception text and models a raised exception reaching the
caller.  HTTP transport outcomes are passed in explicitly: a successful
request/JSON-parse is `Except.ok` of the parsed payload, and any
transport-level failure (network error, raising status, malformed body)
is `Except.error msg`.
-/

namespace Grocy

/-- Python `str.isdigit`: true iff the string is non-empty and every
character is a decimal digit (restricted to ASCII digits, the fragment
the receipt codes live in). -/
def pyIsdigit (s : String) : Bool :=
  !s.data.isEmpty && s.data.all (fun c => c.isDigit)

/-- Numeric value of a digit character, as Python `int(digit)` computes it
on `'0'`-`'9'`. -/
def digitVal (c : Char) : Nat := c.toNat - '0'.toNat

/-- The enumerated weighted sum of
`sum(int(digit) * (3 if i % 2 == 0 else 1) for i, digit in enumerate(code11))`,
carrying the running index `i`. -/
def upcSumFrom (i : Nat) : List Char → Nat
  | [] => 0
  | c :: rest => (if i % 2 == 0 then 3 else 1) * digitVal c + upcSumFrom (i + 1) rest

/-- Weighted digit sum of `calculate_upc_check_digit`: weight 3 at even
0-based positions, weight 1 at odd positions. -/
def upcWeightedSum (l : List Char) : Nat := upcSumFrom 0 l

/-- `GrocyClient.calculate_upc_check_digit` (client.py lines 409-427):
validates an 11-digit numeric string, then returns
`str((10 - (total % 10)) % 10)`; raises `ValueError` otherwise. -/
def calculate_upc_check_digit (code11 : String) : Except String String :=
  if code11.length ≠ 11 ∨ pyIsdigit code11 = false then
    Except.error "ValueError: Input must be an 11-digit string"
  else
    Except.ok (toString ((10 - upcWeightedSum code11.data % 10) % 10))

/-- `GrocyClient.build_upc_from_receipt` (client.py lines 429-446):
validates a 10-digit numeric string, prepends `"0"` and appends the
computed check digit; raises `ValueError` otherwise. -/
def build_upc_from_receipt (receipt_code : String) : Except String String :=
  if receipt_code.length ≠ 10 ∨ pyIsdigit receipt_code = false then
    Except.error "ValueError: Expected a 10-digit numeric receipt code"
  else
    (calculate_upc_check_digit ("0" ++ receipt_code)).map
      (fun d => ("0" ++ receipt_code) ++ d)

/-- `GrocyClient.normalize_receipt_barcode` (client.py lines 448-460):
derives the 12-digit UPC-A when the input is exactly 10 numeric digits,
otherwise returns the input unchanged. -/
def normalize_receipt_barcode (receipt_code : String) : Except String String :=
  if receipt_code.length = 10 ∧ pyIsdigit receipt_code = true then
    build_upc_from_receipt receipt_code
  else
    Except.ok receipt_code

/-- The check digit value `(10 - (total % 10)) % 10` is below 10. -/
lemma upcCheckVal_lt (t : Nat) : (10 - t % 10) % 10 < 10 := Nat.mod_lt _ (by norm_num)

/-- `toString` of a natural number below 10 is a single character. -/
lemma toString_lt_ten_length (k : Nat) (hk : k < 10) : (toString k).length = 1 := by
  interval_cases k <;> rfl

/-- `toString` of a natural number below 10 is a single digit character. -/
lemma toString_lt_ten_isdigit (k : Nat) (hk : k < 10) : pyIsdigit (toString k) = true := by
  interval_cases k <;> rfl

/-- On a valid 11-digit input the check-digit computation succeeds with the
weighted-sum formula. -/
lemma calculate_upc_check_digit_ok (s : String) (h1 : s.length = 11)
    (h2 : pyIsdigit s = true) :
    calculate_upc_check_digit s =
      Except.ok (toString ((10 - upcWeightedSum s.data % 10) % 10)) := by
  rw [calculate_upc_check_digit, if_neg]
  rw [h1, h2]
  simp

/-- A 10-digit numeric string prefixed by `'0'` is an 11-digit numeric string. -/
lemma zero_prepend_valid (r : String) (h1 : r.length = 10) (h2 : pyIsdigit r = true) :
    ("0" ++ r).length = 11 ∧ pyIsdigit ("0" ++ r) = true := by
  constructor
  · show ("0" ++ r).data.length = 11
    rw [String.data_append]
    have : r.data.length = 10 := h1
    simp [this]
  · rw [pyIsdigit, String.data_append]
    rw [pyIsdigit] at h2
    simp only [Bool.and_eq_true, Bool.not_eq_true', List.isEmpty_eq_false_iff_exists_mem,
      List.all_eq_true] at h2 ⊢
    refine ⟨by simp, ?_⟩
    intro c hc
    rcases List.mem_append.mp hc with hc | hc
    · simp only [List.mem_singleton] at hc
      · subst hc; decide
    · exact h2.2 c hc

/-- On a valid 10-digit input, `build_upc_from_receipt` succeeds and the
result decomposes as `"0" ++ input ++ check-digit`. -/
lemma build_upc_from_receipt_ok (r : String) (h1 : r.length = 10)
    (h2 : pyIsdigit r = true) :
    build_upc_from_receipt r =
      Except.ok (("0" ++ r) ++
        toString ((10 - upcWeightedSum ("0" ++ r).data % 10) % 10)) := by
  obtain ⟨hb1, hb2⟩ := zero_prepend_valid r h1 h2
  rw [build_upc_from_receipt, if_neg, calculate_upc_check_digit_ok _ hb1 hb2]
  · rfl
  · rw [h1, h2]
    simp

/-- The string produced by `build_upc_from_receipt` on a valid input has
exactly 12 characters, all digits. -/
lemma build_upc_result_shape (r : String) (h1 : r.length = 10)
    (h2 : pyIsdigit r = true) :
    ∀ u, build_upc_from_receipt r = Except.ok u →
      u.length = 12 ∧ pyIsdigit u = true := by
  intro u hu
  rw [build_upc_from_receipt_ok r h1 h2] at hu
  injection hu with hu
  subst hu
  set k := (10 - upcWeightedSum ("0" ++ r).data % 10) % 10 with hk
  have hklt : k < 10 := upcCheckVal_lt _
  constructor
  · rw [String.length_append, String.length_append, h1, toString_lt_ten_length k hklt]
    rfl
  · have hrd := h2
    have htd := toString_lt_ten_isdigit k hklt
    rw [pyIsdigit] at hrd htd ⊢
    rw [String.data_append, String.data_append]
    simp only [Bool.and_eq_true, Bool.not_eq_true', List.isEmpty_eq_false_iff_exists_mem,
      List.all_eq_true] at hrd htd ⊢
    refine ⟨by simp, ?_⟩
    intro c hc
    simp only [List.mem_append, List.mem_singleton] at hc
    rcases hc with (hc | hc) | hc
    · subst hc; decide
    · exact hrd.2 c hc
    · exact htd.2 c hc

/-- An entry of the `quantity_unit_conversions` table as the scan in
`convert_purchase_quantities_to_stock` reads it: a JSON object that may or
may not carry each key (a missing key makes the Python subscript raise
`KeyError`). -/
structure QuConversion where
  from_qu_id : Option Nat
  to_qu_id : Option Nat
  factor : Option ℚ

/-- `GrocyClient.get_quantity_unit_conversions` (client.py lines 348-363):
returns the fetched table on success and swallows any transport failure
into the empty list. -/
def get_quantity_unit_conversions
    (transport : Except String (List QuConversion)) : List QuConversion :=
  match transport with
  | Except.ok table => table
  | Except.error _ => []

/-- Result of `convert_purchase_quantities_to_stock`: a converted amount,
or the error dictionary built in its `except` branch. -/
inductive ConvertResult where
  | value (q : ℚ)
  | errorObj (msg : String)
deriving DecidableEq

/-- The `for conversion in conversions` scan of
`convert_purchase_quantities_to_stock` (client.py lines 476-479), with
Python's short-circuit key accesses: a missing key raises `KeyError`. -/
def scanConversions (purchase_id stock_id : Nat) (amount : ℚ) :
    List QuConversion → Except String ℚ
  | [] => Except.ok amount
  | c :: rest =>
    match c.from_qu_id with
    | none => Except.error "KeyError: from_qu_id"
    | some f =>
      if f = purchase_id then
        match c.to_qu_id with
        | none => Except.error "KeyError: to_qu_id"
        | some t =>
          if t = stock_id then
            match c.factor with
            | none => Except.error "KeyError: factor"
            | some fac => Except.ok (amount * fac)
          else scanConversions purchase_id stock_id amount rest
      else scanConversions purchase_id stock_id amount rest

/-- `GrocyClient.convert_purchase_quantities_to_stock` (client.py lines
462-482): the table fetch happens before the `try`, so only the scan's own
exceptions become the error object. -/
def convert_purchase_quantities_to_stock
    (transport : Except String (List QuConversion))
    (purchase_id stock_id : Nat) (amount : ℚ) : ConvertResult :=
  match scanConversions purchase_id stock_id amount
      (get_quantity_unit_conversions transport) with
  | Except.ok q => ConvertResult.value q
  | Except.error e => ConvertResult.errorObj e

/-- A product row as read by the modelled operations: the fields the code
accesses. -/
structure Product where
  id : Nat
  name : String
deriving DecidableEq

/-- `GrocyClient.get_all_products` (client.py lines 318-333): returns the
parsed list on success and `None` — not the empty list — on any transport
failure. -/
def get_all_products (transport : Except String (List Product)) :
    Option (List Product) :=
  match transport with
  | Except.ok products => some products
  | Except.error _ => none

/-- `GrocyClient.get_product_by_name` (client.py lines 335-346): iterates
over `get_all_products()` with no exception handling of its own; when that
call yields `None`, the iteration raises `TypeError`. -/
def get_product_by_name (transport : Except String (List Product))
    (product_name : String) : Except String (Option Product) :=
  match get_all_products transport with
  | none => Except.error "TypeError: NoneType object is not iterable"
  | some products =>
    Except.ok (products.find? (fun p => p.name == product_name))

/-- The status and parsed JSON body of the create-product POST. -/
structure CreateResponse where
  status : Nat
  error_msg : Option String
  created_object_id : Option Nat

/-- Result dictionary of `create_product`: the error object, a product, or
`None`. -/
inductive CreateOutcome where
  | errorObj (msg : Option String)
  | product (p : Product)
  | noneResult
deriving DecidableEq

/-- The tail of `create_product` after `product` is resolved (client.py
lines 228-237): optionally attach the barcode, propagate a barcode error
object, otherwise return `product or None`.  The Boolean records whether
the name-based fallback produced `product`. -/
def create_product_finish (product : Option Product) (has_barcode : Bool)
    (barcode_error : Option String) (used_fallback : Bool) :
    Except String (CreateOutcome × Bool) :=
  match product with
  | some p =>
    if has_barcode then
      match barcode_error with
      | some e => Except.ok (CreateOutcome.errorObj (some e), used_fallback)
      | none => Except.ok (CreateOutcome.product p, used_fallback)
    else Except.ok (CreateOutcome.product p, used_fallback)
  | none => Except.ok (CreateOutcome.noneResult, used_fallback)

/-- `GrocyClient.create_product` (client.py lines 179-237): on HTTP 400
return the error object with the remote message; otherwise fetch the
created product by id; if the POST itself raised, fall back to the exact
name lookup (whose own exceptions propagate, see `get_product_by_name`).
The Boolean in the result records whether the fallback ran. -/
def create_product (transport : Except String CreateResponse)
    (lookup_by_id : Option Nat → Option Product)
    (fallback_by_name : Except String (Option Product))
    (has_barcode : Bool) (barcode_error : Option String) :
    Except String (CreateOutcome × Bool) :=
  match transport with
  | Except.ok resp =>
    if resp.status = 400 then
      Except.ok (CreateOutcome.errorObj resp.error_msg, false)
    else
      create_product_finish (lookup_by_id resp.created_object_id)
        has_barcode barcode_error false
  | Except.error _ =>
    match fallback_by_name with
    | Except.error e => Except.error e
    | Except.ok p => create_product_finish p has_barcode barcode_error true

/-- The stock-details payload `add_purchase` reads: the purchase-to-stock
conversion factor. -/
structure ProductDetails where
  qu_conversion_factor_purchase_to_stock : ℚ
deriving DecidableEq

/-- The purchase request dictionary passed to `add_purchase`. -/
structure PurchaseData where
  product_id : Nat
  amount : ℚ
  days_out : Int
  shopping_location_id : Nat
  price : Option ℚ

/-- The JSON body posted by `add_purchase`; dates are modelled as day
numbers, so the expiration is `today + days_out`. -/
structure GrocyPurchase where
  amount : ℚ
  transaction_type : String
  best_before_date : Int
  price : ℚ
  shopping_location_id : Nat
deriving DecidableEq

/-- What `add_purchase` hands back out of its `try` block: the remote
response body, or the error dictionary from the `except` branch. -/
inductive PurchaseOutcome (α : Type) where
  | response (r : α)
  | errorObj (msg : String)

/-- `GrocyClient.add_purchase` (client.py lines 365-407): looks up the
stock details, computes the expiration date, the stock amount
`amount × factor` and the stock price `price / factor` (price defaulting
to 0) before the `try`, then posts with transaction type `"purchase"`.
A `None` details payload is subscripted (raising `TypeError`) and a zero
factor divides by zero, both outside the `try`; only the POST itself is
converted to an error object. -/
def add_purchase {α : Type} (details : Option ProductDetails) (today : Int)
    (purchase_data : PurchaseData)
    (transport : GrocyPurchase → Except String α) :
    Except String (PurchaseOutcome α) :=
  match details with
  | none => Except.error "TypeError: NoneType object is not subscriptable"
  | some d =>
    let factor := d.qu_conversion_factor_purchase_to_stock
    let expiration_date := today + purchase_data.days_out
    let calc_amount := purchase_data.amount * factor
    if factor = 0 then
      Except.error "ZeroDivisionError: division by zero"
    else
      let calc_price := purchase_data.price.getD 0 / factor
      match transport ⟨calc_amount, "purchase", expiration_date, calc_price,
          purchase_data.shopping_location_id⟩ with
      | Except.ok resp => Except.ok (PurchaseOutcome.response resp)
      | Except.error e => Except.ok (PurchaseOutcome.errorObj e)

/-- C1: for every 11-digit numeric string, `calculate_upc_check_digit`
returns the single digit `(10 - (weighted sum mod 10)) mod 10`, where the
weighted sum weights even 0-based indices by 3 and odd indices by 1, so
that weighted sum plus check digit is divisible by 10; in particular
`calculate_upc_check_digit "03600029145"` returns `"2"`. -/
theorem upc_check_digit_correct (s : String) (h1 : s.length = 11)
    (h2 : pyIsdigit s = true) :
    calculate_upc_check_digit s =
      Except.ok (toString ((10 - upcWeightedSum s.data % 10) % 10)) ∧
    (toString ((10 - upcWeightedSum s.data % 10) % 10)).length = 1 ∧
    pyIsdigit (toString ((10 - upcWeightedSum s.data % 10) % 10)) = true ∧
    (upcWeightedSum s.data + (10 - upcWeightedSum s.data % 10) % 10) % 10 = 0 ∧
    calculate_upc_check_digit "03600029145" = Except.ok "2" := by
  refine ⟨calculate_upc_check_digit_ok s h1 h2,
    toString_lt_ten_length _ (upcCheckVal_lt _),
    toString_lt_ten_isdigit _ (upcCheckVal_lt _), ?_, rfl⟩
  omega

theorem upc_check_digit_correct_witness :
    ("03600029145".length = 11 ∧ pyIsdigit "03600029145" = true) ∧
    calculate_upc_check_digit "03600029145" = Except.ok "2" :=
  ⟨⟨by decide, by decide⟩,
    (upc_check_digit_correct "03600029145" (by decide) (by decide)).2.2.2.2⟩

/-- C2: for every 10-digit numeric string `r`, `build_upc_from_receipt`
returns exactly the literal `"0"` prepended to `r` with the computed check
digit appended — a 12-character string starting with `'0'`, whose first 11
characters are `"0" ++ r` and whose last character is the check digit
`calculate_upc_check_digit` computes for those first 11 characters. -/
theorem build_upc_structure (r : String) (h1 : r.length = 10)
    (h2 : pyIsdigit r = true) :
    ∃ u, build_upc_from_receipt r = Except.ok u ∧
      u = ("0" ++ r) ++
        toString ((10 - upcWeightedSum ("0" ++ r).data % 10) % 10) ∧
      u.length = 12 ∧
      u.data.head? = some '0' ∧
      String.mk (u.data.take 11) = "0" ++ r ∧
      calculate_upc_check_digit (String.mk (u.data.take 11)) =
        Except.ok (String.mk (u.data.drop 11)) := by
  obtain ⟨hb1, hb2⟩ := zero_prepend_valid r h1 h2
  have hb1' : ("0" ++ r).data.length = 11 := hb1
  have hdata : (("0" ++ r) ++
      toString ((10 - upcWeightedSum ("0" ++ r).data % 10) % 10)).data =
      ("0" ++ r).data ++
        (toString ((10 - upcWeightedSum ("0" ++ r).data % 10) % 10)).data :=
    String.data_append _ _
  have h3 : String.mk ("0" ++ r).data = "0" ++ r := rfl
  refine ⟨_, build_upc_from_receipt_ok r h1 h2, rfl,
    (build_upc_result_shape r h1 h2 _ (build_upc_from_receipt_ok r h1 h2)).1,
    ?_, ?_, ?_⟩
  · rw [String.data_append, String.data_append]
    rfl
  · rw [hdata, List.take_left' hb1', h3]
  · have h4 : String.mk (toString
        ((10 - upcWeightedSum ("0" ++ r).data % 10) % 10)).data =
        toString ((10 - upcWeightedSum ("0" ++ r).data % 10) % 10) := rfl
    rw [hdata, List.take_left' hb1', List.drop_left' hb1']
    rw [h3, h4, calculate_upc_check_digit_ok _ hb1 hb2]

theorem build_upc_structure_witness :
    build_upc_from_receipt "1234567890" = Except.ok "012345678905" ∧
    "012345678905" = ("0" ++ "1234567890") ++
      toString ((10 - upcWeightedSum ("0" ++ "1234567890").data % 10) % 10) ∧
    ("012345678905" : String).length = 12 := by
  obtain ⟨u, hu, heq, hlen, -, -, -⟩ :=
    build_upc_structure "1234567890" (by decide) (by decide)
  have he : build_upc_from_receipt "1234567890" = Except.ok "012345678905" := rfl
  rw [he] at hu
  injection hu with hu
  exact ⟨he, hu ▸ heq, hu ▸ hlen⟩

/-- C3: `normalize_receipt_barcode` derives the 12-digit UPC-A via
`build_upc_from_receipt` exactly when the input is 10 numeric digits, and
returns every other input unchanged. -/
theorem normalize_receipt_barcode_cases (s : String) :
    (s.length = 10 ∧ pyIsdigit s = true →
      ∃ u, build_upc_from_receipt s = Except.ok u ∧
        normalize_receipt_barcode s = Except.ok u ∧
        u.length = 12 ∧ pyIsdigit u = true) ∧
    (¬(s.length = 10 ∧ pyIsdigit s = true) →
      normalize_receipt_barcode s = Except.ok s) := by
  constructor
  · rintro ⟨h1, h2⟩
    refine ⟨_, build_upc_from_receipt_ok s h1 h2, ?_,
      build_upc_result_shape s h1 h2 _ (build_upc_from_receipt_ok s h1 h2)⟩
    rw [normalize_receipt_barcode, if_pos ⟨h1, h2⟩, build_upc_from_receipt_ok s h1 h2]
  · intro h
    rw [normalize_receipt_barcode, if_neg h]

theorem normalize_receipt_barcode_cases_witness :
    normalize_receipt_barcode "ABC123" = Except.ok "ABC123" ∧
    normalize_receipt_barcode "123456789012" = Except.ok "123456789012" :=
  ⟨(normalize_receipt_barcode_cases "ABC123").2 (by decide),
   (normalize_receipt_barcode_cases "123456789012").2 (by decide)⟩

/-- C4: `calculate_upc_check_digit` fails exactly when its argument is not
an 11-digit numeric string, and `build_upc_from_receipt` fails exactly when
its argument is not a 10-digit numeric string; both reject `"1234567890a"`
and `"123"`. -/
theorem upc_invalid_input_rejection (s t : String) :
    ((∃ e, calculate_upc_check_digit s = Except.error e) ↔
      ¬(s.length = 11 ∧ pyIsdigit s = true)) ∧
    ((∃ e, build_upc_from_receipt t = Except.error e) ↔
      ¬(t.length = 10 ∧ pyIsdigit t = true)) ∧
    calculate_upc_check_digit "1234567890a" =
      Except.error "ValueError: Input must be an 11-digit string" ∧
    calculate_upc_check_digit "123" =
      Except.error "ValueError: Input must be an 11-digit string" ∧
    build_upc_from_receipt "1234567890a" =
      Except.error "ValueError: Expected a 10-digit numeric receipt code" ∧
    build_upc_from_receipt "123" =
      Except.error "ValueError: Expected a 10-digit numeric receipt code" := by
  refine ⟨?_, ?_, rfl, rfl, rfl, rfl⟩
  · by_cases hc : s.length = 11 ∧ pyIsdigit s = true
    · rw [calculate_upc_check_digit_ok s hc.1 hc.2]
      simp [hc]
    · have hcond : s.length ≠ 11 ∨ pyIsdigit s = false := by
        by_cases h1 : s.length = 11
        · right
          rcases Bool.eq_false_or_eq_true (pyIsdigit s) with h | h
          · exact absurd ⟨h1, h⟩ hc
          · exact h
        · exact Or.inl h1
      rw [calculate_upc_check_digit, if_pos hcond]
      simp [hc]
  · by_cases hc : t.length = 10 ∧ pyIsdigit t = true
    · rw [build_upc_from_receipt_ok t hc.1 hc.2]
      simp [hc]
    · have hcond : t.length ≠ 10 ∨ pyIsdigit t = false := by
        by_cases h1 : t.length = 10
        · right
          rcases Bool.eq_false_or_eq_true (pyIsdigit t) with h | h
          · exact absurd ⟨h1, h⟩ hc
          · exact h
        · exact Or.inl h1
      rw [build_upc_from_receipt, if_pos hcond]
      simp [hc]

theorem upc_invalid_input_rejection_witness :
    calculate_upc_check_digit "123" =
      Except.error "ValueError: Input must be an 11-digit string" :=
  (upc_invalid_input_rejection "123" "123").2.2.2.1

/-- C10: `normalize_receipt_barcode` is idempotent: applying it to its own
output leaves that output unchanged, because the derived code of the
10-digit branch has 12 characters and falls through on a second pass. -/
theorem normalize_receipt_barcode_idempotent (s : String) :
    (normalize_receipt_barcode s).bind normalize_receipt_barcode =
      normalize_receipt_barcode s := by
  by_cases hc : s.length = 10 ∧ pyIsdigit s = true
  · obtain ⟨h1, h2⟩ := hc
    have hlen :=
      (build_upc_result_shape s h1 h2 _ (build_upc_from_receipt_ok s h1 h2)).1
    rw [normalize_receipt_barcode, if_pos ⟨h1, h2⟩, build_upc_from_receipt_ok s h1 h2]
    show normalize_receipt_barcode _ = _
    rw [normalize_receipt_barcode, if_neg]
    intro hcon
    rw [hlen] at hcon
    exact absurd hcon.1 (by norm_num)
  · rw [normalize_receipt_barcode, if_neg hc]
    show normalize_receipt_barcode s = _
    rw [normalize_receipt_barcode, if_neg hc]

/-- On a table whose entries all carry the three keys, the scan agrees
with first-match lookup. -/
lemma scanConversions_wf (pid sid : Nat) (amount : ℚ)
    (table : List QuConversion)
    (hwf : ∀ c ∈ table,
      c.from_qu_id.isSome ∧ c.to_qu_id.isSome ∧ c.factor.isSome) :
    scanConversions pid sid amount table =
      match table.find?
          (fun c => c.from_qu_id == some pid && c.to_qu_id == some sid) with
      | some c => Except.ok (amount * c.factor.getD 0)
      | none => Except.ok amount := by
  induction table with
  | nil => rfl
  | cons c rest ih =>
    have ih' := ih (fun d hd => hwf d (List.mem_cons_of_mem _ hd))
    obtain ⟨cf, ct, cfac⟩ := c
    obtain ⟨hf, ht, hfac⟩ := hwf ⟨cf, ct, cfac⟩ (List.mem_cons_self _ _)
    obtain ⟨f, rfl⟩ := Option.isSome_iff_exists.mp hf
    obtain ⟨t, rfl⟩ := Option.isSome_iff_exists.mp ht
    obtain ⟨fac, rfl⟩ := Option.isSome_iff_exists.mp hfac
    by_cases h1 : f = pid <;> by_cases h2 : t = sid <;>
      simp [scanConversions, List.find?_cons, h1, h2, ih']

/-- C5: `convert_purchase_quantities_to_stock` returns `amount × factor`
for the first table entry matching the requested unit pair and the amount
unchanged when no entry matches; with the table `[{from: 1, to: 2,
factor: 2.5}]`, the request `(1, 2, 4)` yields `10` and `(1, 3, 4)`
yields `4`. -/
theorem convert_first_match (table : List QuConversion) (pid sid : Nat)
    (amount : ℚ)
    (hwf : ∀ c ∈ table,
      c.from_qu_id.isSome ∧ c.to_qu_id.isSome ∧ c.factor.isSome) :
    (convert_purchase_quantities_to_stock (Except.ok table) pid sid amount =
      match table.find?
          (fun c => c.from_qu_id == some pid && c.to_qu_id == some sid) with
      | some c => ConvertResult.value (amount * c.factor.getD 0)
      | none => ConvertResult.value amount) ∧
    convert_purchase_quantities_to_stock
      (Except.ok [⟨some 1, some 2, some (5 / 2 : ℚ)⟩]) 1 2 4 =
        ConvertResult.value 10 ∧
    convert_purchase_quantities_to_stock
      (Except.ok [⟨some 1, some 2, some (5 / 2 : ℚ)⟩]) 1 3 4 =
        ConvertResult.value 4 := by
  refine ⟨?_, ?_, ?_⟩
  · rw [convert_purchase_quantities_to_stock,
      show get_quantity_unit_conversions (Except.ok table) = table from rfl,
      scanConversions_wf pid sid amount table hwf]
    cases table.find?
        (fun c => c.from_qu_id == some pid && c.to_qu_id == some sid) <;> rfl
  · have h : (4 : ℚ) * (5 / 2) = 10 := by norm_num
    simp [convert_purchase_quantities_to_stock, get_quantity_unit_conversions,
      scanConversions, h]
  · simp [convert_purchase_quantities_to_stock, get_quantity_unit_conversions,
      scanConversions]

theorem convert_first_match_witness :
    convert_purchase_quantities_to_stock
      (Except.ok [⟨some 1, some 2, some (5 / 2 : ℚ)⟩]) 1 2 4 =
        ConvertResult.value 10 :=
  (convert_first_match [⟨some 1, some 2, some (5 / 2 : ℚ)⟩] 1 2 4
    (by intro c hc; simp only [List.mem_singleton] at hc; subst hc
        exact ⟨rfl, rfl, rfl⟩)).2.1

/-- C6 counterexample: when fetching the conversion table fails at the
transport level, `convert_purchase_quantities_to_stock` returns the amount
unchanged, not an error object. -/
theorem convert_transport_failure_counterexample :
    convert_purchase_quantities_to_stock (Except.error "connection refused")
      1 2 4 = ConvertResult.value 4 ∧
    convert_purchase_quantities_to_stock (Except.error "connection refused")
      1 2 4 ≠ ConvertResult.errorObj "connection refused" := by
  refine ⟨rfl, ?_⟩
  intro h
  exact ConvertResult.noConfusion h

/-- C6 amended: a transport failure on the table fetch is swallowed by
`get_quantity_unit_conversions` into the empty table, so the conversion
returns the amount unchanged; the explicit error object arises only when
scanning the fetched table itself raises, e.g. on an entry missing a
required key. -/
theorem convert_transport_failure_amended (e : String) (pid sid : Nat)
    (amount : ℚ) :
    get_quantity_unit_conversions (Except.error e) = [] ∧
    convert_purchase_quantities_to_stock (Except.error e) pid sid amount =
      ConvertResult.value amount ∧
    convert_purchase_quantities_to_stock
        (Except.ok [⟨none, some sid, some 1⟩]) pid sid amount =
      ConvertResult.errorObj "KeyError: from_qu_id" :=
  ⟨rfl, rfl, rfl⟩

/-- C7: at a concrete transport failure, `get_all_products` returns the
absent marker `None` rather than the empty-list sentinel the policy
declares for list lookups, and `get_product_by_name` — which iterates the
unguarded result — raises `TypeError` to its caller instead of returning
its absent-value sentinel; on a successful transport both behave as
declared. -/
theorem read_failure_policy_bug :
    get_all_products (Except.error "connection refused") = none ∧
    get_product_by_name (Except.error "connection refused") "Milk" =
      Except.error "TypeError: NoneType object is not iterable" ∧
    get_product_by_name (Except.ok ([] : List Product)) "Milk" =
      Except.ok none ∧
    get_product_by_name (Except.ok [⟨7, "Milk"⟩]) "Milk" =
      Except.ok (some ⟨7, "Milk"⟩) :=
  ⟨rfl, rfl, rfl, rfl⟩

/-- `create_product_finish` always reports the fallback flag it was
given. -/
lemma create_product_finish_flag (p : Option Product) (hb : Bool)
    (be : Option String) (b : Bool) :
    ∃ o, create_product_finish p hb be b = Except.ok (o, b) := by
  cases p <;> cases hb <;> cases be <;> exact ⟨_, rfl⟩

/-- C8: when the create POST comes back with HTTP 400, `create_product`
returns the error object carrying the remote-supplied message and the
name-based fallback is not used; the fallback runs only when the create
call itself fails at the transport level. -/
theorem create_product_http400 (resp : CreateResponse)
    (lookup_by_id : Option Nat → Option Product)
    (fallback_by_name : Except String (Option Product))
    (has_barcode : Bool) (barcode_error : Option String)
    (h400 : resp.status = 400) :
    create_product (Except.ok resp) lookup_by_id fallback_by_name
      has_barcode barcode_error =
      Except.ok (CreateOutcome.errorObj resp.error_msg, false) ∧
    (∀ transport res,
      create_product transport lookup_by_id fallback_by_name
        has_barcode barcode_error = Except.ok (res, true) →
      ∃ e, transport = Except.error e) := by
  constructor
  · simp only [create_product, if_pos h400]
  · intro transport res h
    match transport with
    | Except.error e => exact ⟨e, rfl⟩
    | Except.ok r =>
      simp only [create_product] at h
      by_cases hs : r.status = 400
      · rw [if_pos hs] at h
        injection h with h
        exact absurd (congrArg Prod.snd h).symm (by simp)
      · rw [if_neg hs] at h
        obtain ⟨o, ho⟩ := create_product_finish_flag
          (lookup_by_id r.created_object_id) has_barcode barcode_error false
        rw [ho] at h
        injection h with h
        exact absurd (congrArg Prod.snd h).symm (by simp)

theorem create_product_http400_witness :
    create_product (Except.ok ⟨400, some "Request data is invalid", none⟩)
        (fun _ => none) (Except.ok none) false none =
      Except.ok (CreateOutcome.errorObj (some "Request data is invalid"),
        false) :=
  (create_product_http400 ⟨400, some "Request data is invalid", none⟩
    (fun _ => none) (Except.ok none) false none rfl).1

/-- C9: at concrete inputs `add_purchase` computes expiration
`today + days_out`, stock amount `3 × 2 = 6`, stock price `4 / 2 = 2`
(defaulting the price to 0 when absent) with transaction type fixed to
`"purchase"`, and turns a POST failure into the error object — but when
the stock-details lookup has failed (details `None`) it raises `TypeError`
instead of returning an error object. -/
theorem add_purchase_behaviour :
    add_purchase (some ⟨2⟩) 20280 ⟨5, 3, 7, 9, some 4⟩
        (fun gp => Except.ok gp) =
      Except.ok (PurchaseOutcome.response ⟨6, "purchase", 20287, 2, 9⟩) ∧
    add_purchase (some ⟨2⟩) 20280 ⟨5, 3, 7, 9, none⟩
        (fun gp => Except.ok gp) =
      Except.ok (PurchaseOutcome.response ⟨6, "purchase", 20287, 0, 9⟩) ∧
    add_purchase (α := GrocyPurchase) (some ⟨2⟩) 20280 ⟨5, 3, 7, 9, some 4⟩
        (fun _ => Except.error "500 Server Error") =
      Except.ok (PurchaseOutcome.errorObj "500 Server Error") ∧
    add_purchase (α := Unit) none 20280 ⟨5, 3, 7, 9, some 4⟩
        (fun _ => Except.ok ()) =
      Except.error "TypeError: NoneType object is not subscriptable" := by
  refine ⟨?_, ?_, ?_, rfl⟩ <;>
    · simp only [add_purchase]
      norm_num

end Grocy
